import Mathlib

/-!
Verification of the `DoubleLoopCoordinator` Prescient plugin
(`idaes/apps/grid_integration/prescient_plugin.py`).

The plugin is sequential orchestration glue: a coordinator object that
registers callbacks into the external Prescient simulator and, at each
lifecycle point, moves data between the simulator's mutable extension
dictionary, an external bidder object and an external tracker object.

Shallow embedding conventions:
* Python dictionaries become insertion-ordered association lists
  (`List (κ × α)`) with `alGet` / `alSet` mirroring `d[k]` reads and
  `d[k] = v` writes (update in place, append new keys at the end).
* The simulator handle is flattened into a `SimState` record holding the
  pieces the plugin touches: `simulator.data_manager.extensions`,
  `simulator.time_manager.current_time`,
  `simulator.data_manager.ruc_market_active` and
  `simulator.data_manager.ruc_market_pending`.
* Fallible Python evaluation is `Except PyErr`; a callback returns its
  `Except` outcome TOGETHER with the post state, because Python mutations
  performed before an exception persist.
* Numeric market data (power, cost, dispatch) is carried by `Int`: the
  plugin only moves these values around and never computes with them.
* Several method bodies in the source refer to sibling methods by bare
  name (without `self.`), e.g. `_pass_DA_bid_to_prescient(...)` on line
  354, `project_tracking_trajectory(...)` on line 337,
  `pass_RT_bid_to_prescient(...)` on line 405 and
  `assemble_sced_tracking_market_signals(...)` on line 470.  Those names
  are bound only as class attributes, never at module level, so in Python
  the calls raise `NameError` before the callee runs; the embedding
  returns `PyErr.nameError` at exactly those program points.
-/

/-- Python exceptions the plugin can raise. -/
inductive PyErr where
  | keyError (k : String)
  | nameError (n : String)
  | attributeError (a : String)
  | typeError (msg : String)
  | indexError (i : Nat)
  deriving DecidableEq, Repr

/-- Dictionary read `d[k]`: first entry with the given key. -/
def alGet {κ α : Type} [DecidableEq κ] (l : List (κ × α)) (k : κ) : Option α :=
  match l with
  | [] => none
  | p :: rest => if p.1 = k then some p.2 else alGet rest k

/-- Dictionary write `d[k] = v`: update in place if the key exists,
append at the end otherwise (Python insertion order). -/
def alSet {κ α : Type} [DecidableEq κ] (l : List (κ × α)) (k : κ) (v : α) :
    List (κ × α) :=
  match l with
  | [] => [(k, v)]
  | p :: rest => if p.1 = k then (k, v) :: rest else p :: alSet rest k v

/-- Python list indexing `l[i]`, raising `IndexError` out of range. -/
def listIdx {α : Type} (l : List α) (i : Nat) : Except PyErr α :=
  match l.get? i with
  | some v => Except.ok v
  | none => Except.error (PyErr.indexError i)

/-- A bid curve: `list(bids[t][gen].items())`, the insertion-ordered
(power, cost) pairs of one generator's offer at one time step. -/
abbrev Curve := List (Int × Int)

/-- One time step of a bid set: generator name to curve. -/
abbrev GenBids := List (String × Curve)

/-- A bid set `{t: {generator: {power: cost}}}`. -/
abbrev Bids := List (Nat × GenBids)

/-- The external bidder object: the plugin only uses
`stochastic_bidding(date)` and its identity for `write_results`. -/
structure Bidder where
  name : String
  stochastic_bidding : String → Bids

/-- The external tracker object: the plugin callbacks embedded here use
`get_last_delivered_power(generator)` and its identity. -/
structure Tracker where
  name : String
  get_last_delivered_power : String → Int

/-- A value stored in `simulator.data_manager.extensions['plugin_objects']`. -/
inductive PluginObj where
  | bidderObj (b : Bidder)
  | trackerObj (t : Tracker)

/-- The identity under which a plugin object writes its results. -/
def PluginObj.objName : PluginObj → String
  | PluginObj.bidderObj b => b.name
  | PluginObj.trackerObj t => t.name

/-- A `cost_curve` dictionary as written into a generator's `p_cost`. -/
structure CostCurve where
  cost_curve_type : String
  values : Curve
  deriving DecidableEq, Repr

/-- A generator's `p_cost` entry: a single cost curve (real-time) or a
`time_series` of cost curves (day-ahead). -/
inductive PCost where
  | cost_curve (c : CostCurve)
  | time_series (vs : List CostCurve)
  deriving DecidableEq, Repr

/-- The slice of `instance.data['elements']['generator'][g]` the plugin
touches: the solved dispatch `['pg']['values']` and the `'p_cost'` entry. -/
structure GenData where
  pg_values : List Int
  p_cost : Option PCost
  deriving DecidableEq, Repr

/-- A Prescient SCED instance: its generator dictionary. -/
structure ScedInstance where
  generators : List (String × GenData)
  deriving DecidableEq, Repr

/-- A Prescient RUC instance: its generator dictionary. -/
structure RucInstance where
  generators : List (String × GenData)
  deriving DecidableEq, Repr

/-- A solved RUC market object: `thermal_gen_cleared_DA` keyed by
(generator, hour).  The market object is produced by the external solver
and covers the day, so it is modelled as a total function. -/
structure RucMarket where
  thermal_gen_cleared_DA : String → Nat → Int

/-- `simulator.time_manager.current_time`. -/
structure TimeStep where
  date : String
  hour : Nat
  deriving DecidableEq, Repr

/-- A value of the extensions dictionary
`simulator.data_manager.extensions`. -/
inductive ExtVal where
  | pyNone
  | bids (b : Bids)
  | pluginDict (d : List (String × PluginObj))
  | custom (t : List (String × List String))

/-- The extensions dictionary. -/
abbrev ExtDict := List (String × ExtVal)

/-- The part of the Prescient simulator handle the plugin reads and
writes. -/
structure SimState where
  extensions : ExtDict
  current_time : Option TimeStep
  ruc_market_active : Option RucMarket
  ruc_market_pending : Option RucMarket

/-- `ops_stats.observed_thermal_dispatch_levels`. -/
abbrev OpsStats := List (String × Int)

/-- The Prescient options the plugin reads. -/
structure Options where
  bidding_generator : String
  ruc_horizon : Nat
  sced_horizon : Nat
  output_directory : String

/-- The coordinator: holds the externally supplied bidder and tracker. -/
structure DoubleLoopCoordinator where
  bidder : Bidder
  tracker : Tracker

/-- `extensions['plugin_objects'][key]`: the two dictionary reads of the
unpacking lines, with Python's `KeyError` on a missing key and
`TypeError` when the stored `'plugin_objects'` value is not a dict. -/
def getPluginObj (ext : ExtDict) (key : String) : Except PyErr PluginObj :=
  match alGet ext "plugin_objects" with
  | none => Except.error (PyErr.keyError "plugin_objects")
  | some (ExtVal.pluginDict d) =>
    match alGet d key with
    | none => Except.error (PyErr.keyError key)
    | some o => Except.ok o
  | some _ => Except.error (PyErr.typeError "plugin_objects")

/-- `obj.stochastic_bidding(date)`: `AttributeError` unless the object
is a bidder. -/
def PluginObj.call_stochastic_bidding : PluginObj → String → Except PyErr Bids
  | PluginObj.bidderObj b, d => Except.ok (b.stochastic_bidding d)
  | PluginObj.trackerObj _, _ => Except.error (PyErr.attributeError "stochastic_bidding")

/-- `obj.get_last_delivered_power(generator = g)`: `AttributeError`
unless the object is a tracker. -/
def PluginObj.call_get_last_delivered_power : PluginObj → String → Except PyErr Int
  | PluginObj.trackerObj t, g => Except.ok (t.get_last_delivered_power g)
  | PluginObj.bidderObj _, _ => Except.error (PyErr.attributeError "get_last_delivered_power")

/- ------------------------------------------------------------------ -/
/- Callback registration (source lines 12-136).                        -/
/- ------------------------------------------------------------------ -/

/-- The lifecycle points of the Prescient callback registration API. -/
inductive HookPoint where
  | initialization
  | beforeRucSolve
  | beforeOperationsSolve
  | afterOperations
  | updateOperationsStats
  | afterRucActivation
  | afterSimulation
  deriving DecidableEq, Repr

/-- The coordinator methods passed to the registration API. -/
inductive CallbackId where
  | initializeCustomizedResults
  | initializeBiddingObject
  | initializeTrackingObject
  | bidIntoDAM
  | bidIntoRTM
  | trackScedSignal
  | updateObservedThermalDispatch
  | afterRucActivationCb
  | writePluginResults
  deriving DecidableEq, Repr

/-- `dest` names of the command line options added by
`_register_custom_commandline_options` (source lines 25-113), in order. -/
def register_custom_commandline_option_dests : List String :=
  ["track_ruc_signal", "track_sced_signal", "hybrid_tracking", "track_horizon",
   "bidding_generator", "bidding", "deviation_weight", "ramping_weight",
   "cost_weight", "rts_gmlc_data_dir", "price_forecast_file"]

/-- `_register_initialization_callbacks` (source lines 115-118). -/
def register_initialization_callback_events : List (HookPoint × CallbackId) :=
  [(HookPoint.initialization, CallbackId.initializeCustomizedResults),
   (HookPoint.initialization, CallbackId.initializeBiddingObject),
   (HookPoint.initialization, CallbackId.initializeTrackingObject)]

/-- `_register_before_ruc_solve_callbacks` (source lines 120-121). -/
def register_before_ruc_solve_events : List (HookPoint × CallbackId) :=
  [(HookPoint.beforeRucSolve, CallbackId.bidIntoDAM)]

/-- `_register_before_operations_solve_callbacks` (source lines 123-124). -/
def register_before_operations_solve_events : List (HookPoint × CallbackId) :=
  [(HookPoint.beforeOperationsSolve, CallbackId.bidIntoRTM)]

/-- `_register_after_operations_callbacks` (source lines 126-127). -/
def register_after_operations_events : List (HookPoint × CallbackId) :=
  [(HookPoint.afterOperations, CallbackId.trackScedSignal)]

/-- `_register_update_operations_stats_callbacks` (source lines 129-130). -/
def register_update_operations_stats_events : List (HookPoint × CallbackId) :=
  [(HookPoint.updateOperationsStats, CallbackId.updateObservedThermalDispatch)]

/-- `_register_after_ruc_activation_callbacks` (source lines 132-133). -/
def register_after_ruc_activation_events : List (HookPoint × CallbackId) :=
  [(HookPoint.afterRucActivation, CallbackId.afterRucActivationCb)]

/-- `_register_after_simulation_callback` (source lines 135-136). -/
def register_after_simulation_events : List (HookPoint × CallbackId) :=
  [(HookPoint.afterSimulation, CallbackId.writePluginResults)]

/-- `register_callbacks` (source lines 12-23): the hook registrations
performed, in call order (the command line options of line 14 are
recorded separately in `register_custom_commandline_option_dests`). -/
def register_callbacks_events : List (HookPoint × CallbackId) :=
  register_initialization_callback_events ++
  register_before_ruc_solve_events ++
  register_before_operations_solve_events ++
  register_after_operations_events ++
  register_update_operations_stats_events ++
  register_after_ruc_activation_events ++
  register_after_simulation_events

/-- `DoubleLoopCoordinator.__init__` (source lines 6-10): stores the two
external objects and immediately calls `register_callbacks`; the second
component is the list of hook registrations that construction performs. -/
def DoubleLoopCoordinator.construct (b : Bidder) (t : Tracker) :
    DoubleLoopCoordinator × List (HookPoint × CallbackId) :=
  (⟨b, t⟩, register_callbacks_events)

/-- How many registrations construction performs at a given hook point. -/
def hookCount (h : HookPoint) : Nat :=
  (register_callbacks_events.filter (fun e => e.1 = h)).length

/- ------------------------------------------------------------------ -/
/- Initialization callbacks (source lines 138-187).                    -/
/- ------------------------------------------------------------------ -/

/-- `initialize_customized_results` (source lines 138-151): writes a
fresh table of seven named empty columns under
`extensions['customized_results']`. -/
def initialize_customized_results (_options : Options) (st : SimState) :
    Except PyErr Unit × SimState :=
  let table : List (String × List String) :=
    [("Generator", []), ("Date", []), ("Hour", []), ("State", []),
     ("RUC Schedule", []), ("SCED Schedule", []), ("Power Output", [])]
  (Except.ok (),
   { st with extensions := alSet st.extensions "customized_results" (ExtVal.custom table) })

/-- `initialize_bidding_object` (source lines 153-169):
`extensions.setdefault('plugin_objects', {})` followed by
`plugin_dict['bidder'] = self.bidder` (the setdefault result aliases the
stored dict, so the write lands in the extensions entry). -/
def initialize_bidding_object (co : DoubleLoopCoordinator) (_options : Options)
    (st : SimState) : Except PyErr Unit × SimState :=
  match alGet st.extensions "plugin_objects" with
  | some (ExtVal.pluginDict d) =>
    (Except.ok (),
     { st with extensions := (alSet st.extensions "plugin_objects"
         (ExtVal.pluginDict (alSet d "bidder" (PluginObj.bidderObj co.bidder)))) })
  | some _ => (Except.error (PyErr.typeError "plugin_objects"), st)
  | none =>
    (Except.ok (),
     { st with extensions := (alSet st.extensions "plugin_objects"
         (ExtVal.pluginDict [("bidder", PluginObj.bidderObj co.bidder)])) })

/-- `initialize_tracking_object` (source lines 171-187): same shape as
`initialize_bidding_object`, storing the tracker under `'tracker'`. -/
def initialize_tracking_object (co : DoubleLoopCoordinator) (_options : Options)
    (st : SimState) : Except PyErr Unit × SimState :=
  match alGet st.extensions "plugin_objects" with
  | some (ExtVal.pluginDict d) =>
    (Except.ok (),
     { st with extensions := (alSet st.extensions "plugin_objects"
         (ExtVal.pluginDict (alSet d "tracker" (PluginObj.trackerObj co.tracker)))) })
  | some _ => (Except.error (PyErr.typeError "plugin_objects"), st)
  | none =>
    (Except.ok (),
     { st with extensions := (alSet st.extensions "plugin_objects"
         (ExtVal.pluginDict [("tracker", PluginObj.trackerObj co.tracker)])) })

/-- The three initialization callbacks run by the simulator in their
registration order, stopping at the first uncaught exception. -/
def run_initialization_callbacks (co : DoubleLoopCoordinator) (options : Options)
    (st : SimState) : Except PyErr Unit × SimState :=
  match initialize_customized_results options st with
  | (Except.error e, st1) => (Except.error e, st1)
  | (Except.ok _, st1) =>
    match initialize_bidding_object co options st1 with
    | (Except.error e, st2) => (Except.error e, st2)
    | (Except.ok _, st2) => initialize_tracking_object co options st2

/- ------------------------------------------------------------------ -/
/- Bid passing helpers (source lines 189-212 and 358-383).             -/
/- ------------------------------------------------------------------ -/

/-- `bids[t][gen_name]` with Python `KeyError` on either lookup. -/
def bidCurveAt (bids : Bids) (t : Nat) (g : String) : Except PyErr Curve :=
  match alGet bids t with
  | none => Except.error (PyErr.keyError (toString t))
  | some hb =>
    match alGet hb g with
    | none => Except.error (PyErr.keyError g)
    | some c => Except.ok c

/-- `[list(bids[t][gen_name].items()) for t in range(s, s+n)]`: the list
comprehension of `_pass_DA_bid_to_prescient`, with `s = 0` and
`n = options.ruc_horizon` at the call site. -/
def daCurves (bids : Bids) (g : String) : Nat → Nat → Except PyErr (List Curve)
  | _, 0 => Except.ok []
  | t, Nat.succ n =>
    match bidCurveAt bids t g with
    | Except.error e => Except.error e
    | Except.ok c =>
      match daCurves bids g (t + 1) n with
      | Except.error e => Except.error e
      | Except.ok rest => Except.ok (c :: rest)

/-- `_pass_DA_bid_to_prescient` (source lines 189-212), as the method
itself behaves when invoked: writes the generator's `'p_cost'` as a
time series of `options.ruc_horizon` piecewise cost curves, entry `t`
built from `bids[t][gen_name]`. -/
def pass_DA_bid_to_prescient (options : Options) (ruc : RucInstance) (bids : Bids) :
    Except PyErr RucInstance :=
  let g := options.bidding_generator
  match alGet ruc.generators g with
  | none => Except.error (PyErr.keyError g)
  | some gd =>
    match daCurves bids g 0 options.ruc_horizon with
    | Except.error e => Except.error e
    | Except.ok p_cost =>
      Except.ok ⟨alSet ruc.generators g
        { gd with p_cost := some (PCost.time_series
            (p_cost.map (fun c => ⟨"piecewise", c⟩))) }⟩

/-- `pass_RT_bid_to_prescient` (source lines 358-383), as the method
itself behaves when invoked: writes the generator's `'p_cost'` as one
piecewise cost curve built from `bids[hour][gen_name]`. -/
def pass_RT_bid_to_prescient (options : Options) (_st : SimState) (sced : ScedInstance)
    (bids : Bids) (hour : Nat) : Except PyErr ScedInstance :=
  let g := options.bidding_generator
  match alGet sced.generators g with
  | none => Except.error (PyErr.keyError g)
  | some gd =>
    match bidCurveAt bids hour g with
    | Except.error e => Except.error e
    | Except.ok p_cost =>
      Except.ok ⟨alSet sced.generators g
        { gd with p_cost := some (PCost.cost_curve ⟨"piecewise", p_cost⟩) }⟩

/- ------------------------------------------------------------------ -/
/- Market callbacks (source lines 311-407 and 508-546).                -/
/- ------------------------------------------------------------------ -/

/-- `bid_into_DAM` (source lines 311-356).  Checks
`simulator.time_manager.current_time is None`, unpacks the bidder from
`extensions['plugin_objects']['bidder']` and then:
* not the first day — source line 337 calls
  `project_tracking_trajectory(...)` as a bare name, so the call raises
  `NameError` before anything else happens;
* first day — generates `bids = bidder.stochastic_bidding(ruc_date)`,
  stores them under both `'current_bids'` and `'next_bids'`, and then
  raises `NameError` at source line 354, where
  `_pass_DA_bid_to_prescient(...)` is called as a bare name (the stores
  persist, the RUC instance is never written). -/
def bid_into_DAM (_options : Options) (st : SimState) (ruc : RucInstance)
    (ruc_date : String) (_ruc_hour : Nat) :
    Except PyErr Unit × SimState × RucInstance :=
  let is_first_day := st.current_time.isNone
  match getPluginObj st.extensions "bidder" with
  | Except.error e => (Except.error e, st, ruc)
  | Except.ok bidder =>
    if is_first_day then
      match bidder.call_stochastic_bidding ruc_date with
      | Except.error e => (Except.error e, st, ruc)
      | Except.ok bids =>
        let ext1 := alSet st.extensions "current_bids" (ExtVal.bids bids)
        let ext2 := alSet ext1 "next_bids" (ExtVal.bids bids)
        (Except.error (PyErr.nameError "_pass_DA_bid_to_prescient"),
         { st with extensions := ext2 }, ruc)
    else
      (Except.error (PyErr.nameError "project_tracking_trajectory"), st, ruc)

/-- `bid_into_RTM` (source lines 385-407).  Reads
`simulator.time_manager.current_time.hour`, then
`extensions['current_bids']` (a `KeyError` propagates), then raises
`NameError` at source line 405 where `pass_RT_bid_to_prescient(...)` is
called as a bare name; the SCED instance is never written. -/
def bid_into_RTM (_options : Options) (st : SimState) (sced : ScedInstance) :
    Except PyErr Unit × SimState × ScedInstance :=
  match st.current_time with
  | none => (Except.error (PyErr.attributeError "hour"), st, sced)
  | some _tm =>
    match alGet st.extensions "current_bids" with
    | none => (Except.error (PyErr.keyError "current_bids"), st, sced)
    | some _bids =>
      (Except.error (PyErr.nameError "pass_RT_bid_to_prescient"), st, sced)

/-- The loop of `assemble_sced_tracking_market_signals` (source lines
435-443): `for t in range(hour+1, hour+sced_horizon)`, appending the
pending RUC dispatch at `t mod 24` when `t > 23` and a pending RUC
exists, the SCED dispatch at `t - hour` when `t > 23` and none exists,
and the active RUC dispatch at `t` otherwise.  `t` is the current loop
index and the last argument counts the remaining iterations. -/
def scedSignalLoop (g : String) (sd : List Int) (cur : String → Nat → Int)
    (pend : Option (String → Nat → Int)) (hour : Nat) :
    Nat → Nat → Except PyErr (List Int)
  | _t, 0 => Except.ok []
  | t, Nat.succ n =>
    let dres : Except PyErr Int :=
      if t > 23 then
        match pend with
        | some nx => Except.ok (nx g (t % 24))
        | none => listIdx sd (t - hour)
      else Except.ok (cur g t)
    match dres with
    | Except.error e => Except.error e
    | Except.ok dispatch =>
      match scedSignalLoop g sd cur pend hour (t + 1) n with
      | Except.error e => Except.error e
      | Except.ok rest => Except.ok (dispatch :: rest)

/-- The per-hour dispatch value selected by one iteration of the loop of
`assemble_sced_tracking_market_signals` at time `t` (source lines
436-442), assuming the SCED dispatch index is in range: the pending RUC
dispatch at `t mod 24` when `t > 23` and a pending RUC exists, the SCED
dispatch at `t - hour` when `t > 23` and none exists, and the active RUC
dispatch at `t` otherwise. -/
def scedSignalAt (g : String) (sd : List Int) (cur : String → Nat → Int)
    (pend : Option (String → Nat → Int)) (hour t : Nat) : Int :=
  if t > 23 then
    match pend with
    | some nx => nx g (t % 24)
    | none => sd.getD (t - hour) 0
  else cur g t

/-- `assemble_sced_tracking_market_signals` (source lines 409-445), as
the method itself behaves when invoked: the dispatch signal list for the
bidding generator, starting from the SCED dispatch at index 0 and
continuing per `scedSignalLoop`. -/
def assemble_sced_tracking_market_signals (options : Options) (st : SimState)
    (sced : ScedInstance) (hour : Nat) : Except PyErr (List (String × List Int)) :=
  let g := options.bidding_generator
  match alGet sced.generators g with
  | none => Except.error (PyErr.keyError g)
  | some gd =>
    match st.ruc_market_active with
    | none => Except.error (PyErr.attributeError "thermal_gen_cleared_DA")
    | some mkt =>
      let sced_dispatch := gd.pg_values
      let pend := Option.map (fun m => m.thermal_gen_cleared_DA) st.ruc_market_pending
      match listIdx sced_dispatch 0 with
      | Except.error e => Except.error e
      | Except.ok first =>
        match scedSignalLoop g sced_dispatch mkt.thermal_gen_cleared_DA pend hour
            (hour + 1) (options.sced_horizon - 1) with
        | Except.error e => Except.error e
        | Except.ok rest => Except.ok [(g, first :: rest)]

/-- The loop of `assemble_project_tracking_signal` (source lines
236-241): `for t in range(hour, hour+sced_horizon)`, appending the
active RUC dispatch at `min t 23` (the hour-23 dispatch repeats for
`t >= 23`). -/
def projectSignalLoop (g : String) (d : String → Nat → Int) :
    Nat → Nat → List Int
  | _t, 0 => []
  | t, Nat.succ n =>
    (if t ≥ 23 then d g 23 else d g t) :: projectSignalLoop g d (t + 1) n

/-- `assemble_project_tracking_signal` (source lines 214-243), as the
method itself behaves when invoked: the projected dispatch signal for
the bidding generator over `sced_horizon` hours starting at `hour`. -/
def assemble_project_tracking_signal (options : Options) (st : SimState)
    (hour : Nat) : Except PyErr (List (String × List Int)) :=
  match st.ruc_market_active with
  | none => Except.error (PyErr.attributeError "thermal_gen_cleared_DA")
  | some mkt =>
    let g := options.bidding_generator
    Except.ok [(g, projectSignalLoop g mkt.thermal_gen_cleared_DA hour options.sced_horizon)]

/-- `track_sced_signal` (source lines 447-482).  Reads the current date
and hour, unpacks the tracker, then raises `NameError` at source line
470 where `assemble_sced_tracking_market_signals(...)` is called as a
bare name; the tracker is never asked to track. -/
def track_sced_signal (_options : Options) (st : SimState) (sced : ScedInstance) :
    Except PyErr Unit × SimState × ScedInstance :=
  match st.current_time with
  | none => (Except.error (PyErr.attributeError "date"), st, sced)
  | some _tm =>
    match getPluginObj st.extensions "tracker" with
    | Except.error e => (Except.error e, st, sced)
    | Except.ok _tracker =>
      (Except.error (PyErr.nameError "assemble_sced_tracking_market_signals"), st, sced)

/-- `update_observed_thermal_dispatch` (source lines 484-506): unpacks
the tracker and writes its last delivered power for the bidding
generator into `ops_stats.observed_thermal_dispatch_levels`. -/
def update_observed_thermal_dispatch (options : Options) (st : SimState)
    (ops_stats : OpsStats) : Except PyErr Unit × SimState × OpsStats :=
  match getPluginObj st.extensions "tracker" with
  | Except.error e => (Except.error e, st, ops_stats)
  | Except.ok tr =>
    match tr.call_get_last_delivered_power options.bidding_generator with
    | Except.error e => (Except.error e, st, ops_stats)
    | Except.ok p =>
      (Except.ok (), st, alSet ops_stats options.bidding_generator p)

/-- `after_ruc_activation` (source lines 508-526): the day-ahead bids
computed the day before are put into effect.  Reads
`extensions['next_bids']` (a `KeyError` propagates), writes it to
`extensions['current_bids']` and resets `extensions['next_bids']` to
`None`. -/
def after_ruc_activation (_options : Options) (st : SimState) :
    Except PyErr Unit × SimState :=
  match alGet st.extensions "next_bids" with
  | none => (Except.error (PyErr.keyError "next_bids"), st)
  | some current_bids =>
    let ext1 := alSet st.extensions "current_bids" current_bids
    let ext2 := alSet ext1 "next_bids" ExtVal.pyNone
    (Except.ok (), { st with extensions := ext2 })

/-- `write_plugin_results` (source lines 528-546): iterates over
`extensions['plugin_objects'].items()` and calls
`plugins.write_results(path = options.output_directory)` on each stored
object; the returned list records those calls (object identity, path) in
iteration order. -/
def write_plugin_results (options : Options) (st : SimState) :
    Except PyErr (List (String × String)) × SimState :=
  match alGet st.extensions "plugin_objects" with
  | some (ExtVal.pluginDict pd) =>
    (Except.ok (pd.map (fun kv => (PluginObj.objName kv.2, options.output_directory))), st)
  | some _ => (Except.error (PyErr.attributeError "items"), st)
  | none => (Except.error (PyErr.keyError "plugin_objects"), st)

/- ------------------------------------------------------------------ -/
/- Concrete fixtures used by the closed witness theorems.              -/
/- ------------------------------------------------------------------ -/

def bidder0 : Bidder := ⟨"bidder", fun _ => []⟩

def tracker0 : Tracker := ⟨"tracker", fun _ => 0⟩

def co0 : DoubleLoopCoordinator := ⟨bidder0, tracker0⟩

def opts0 : Options := ⟨"102_STEAM_3", 48, 4, "out"⟩

def stC1 : SimState := ⟨[("next_bids", ExtVal.bids [])], none, none, none⟩

def stEmpty : SimState := ⟨[], none, none, none⟩

def mkt0 : RucMarket := ⟨fun _ t => Int.ofNat t⟩

def gd0 : GenData := ⟨[10, 11, 12, 13], none⟩

def sced0 : ScedInstance := ⟨[("102_STEAM_3", gd0)]⟩

def stC4 : SimState := ⟨[], some ⟨"2020-07-10", 21⟩, some mkt0, none⟩

def stC6 : SimState := ⟨[], some ⟨"2020-07-10", 5⟩, none, none⟩

def pd0 : List (String × PluginObj) :=
  [("bidder", PluginObj.bidderObj bidder0),
   ("tracker", PluginObj.trackerObj tracker0)]

def stC8 : SimState := ⟨[("plugin_objects", ExtVal.pluginDict pd0)], none, none, none⟩

/-- A non-first-day simulator state: `current_time` is set, the plugin
objects are initialized and a previous activation has left
`'next_bids'` at `None`. -/
def stDay2 : SimState :=
  ⟨[("plugin_objects", ExtVal.pluginDict pd0),
    ("current_bids", ExtVal.bids []),
    ("next_bids", ExtVal.pyNone)],
   some ⟨"2020-07-10", 16⟩, none, none⟩

def ruc0 : RucInstance := ⟨[("102_STEAM_3", gd0)]⟩

/-- A state in the operations phase with current bids present. -/
def stRTM : SimState :=
  ⟨[("current_bids", ExtVal.bids [])], some ⟨"2020-07-10", 5⟩, none, none⟩

def bids1 : Bids := [(0, [("102_STEAM_3", [(20, 300)])])]

def bidder1 : Bidder := ⟨"bidder", fun _ => bids1⟩

/-- A first-day simulator state: `current_time` is `None` and the
bidder is initialized. -/
def stDay1 : SimState :=
  ⟨[("plugin_objects", ExtVal.pluginDict [("bidder", PluginObj.bidderObj bidder1)])],
   none, none, none⟩

/- ------------------------------------------------------------------ -/
/- Theorems.                                                           -/
/- ------------------------------------------------------------------ -/

theorem alGet_alSet_self {κ α : Type} [DecidableEq κ] (l : List (κ × α)) (k : κ) (v : α) :
    alGet (alSet l k v) k = some v := by
  induction l with
  | nil => simp [alGet, alSet]
  | cons p rest ih =>
    by_cases h : p.1 = k
    · simp [alGet, alSet, h]
    · simp [alGet, alSet, h, ih]

theorem alGet_alSet_ne {κ α : Type} [DecidableEq κ] (l : List (κ × α)) (k k' : κ) (v : α)
    (h : k' ≠ k) : alGet (alSet l k v) k' = alGet l k' := by
  have hk : k ≠ k' := Ne.symm h
  induction l with
  | nil => simp [alGet, alSet, hk]
  | cons p rest ih =>
    by_cases hp : p.1 = k
    · simp [alGet, alSet, hp, hk]
    · simp [alGet, alSet, hp, ih]

/-- Claim C1: `after_ruc_activation` moves the bid stored under `'next_bids'`
to `'current_bids'` and resets `'next_bids'` to Python `None`, whenever
the extensions dictionary has a `'next_bids'` entry. -/
theorem after_ruc_activation_moves_bids (options : Options) (st : SimState) (v : ExtVal)
    (h : alGet st.extensions "next_bids" = some v) :
    (after_ruc_activation options st).1 = Except.ok () ∧
    alGet (after_ruc_activation options st).2.extensions "current_bids" = some v ∧
    alGet (after_ruc_activation options st).2.extensions "next_bids" = some ExtVal.pyNone := by
  unfold after_ruc_activation
  rw [h]
  refine ⟨rfl, ?_, ?_⟩
  · rw [alGet_alSet_ne _ _ _ _ (by decide), alGet_alSet_self]
  · rw [alGet_alSet_self]

theorem after_ruc_activation_moves_bids_witness :
    alGet stC1.extensions "next_bids" = some (ExtVal.bids []) ∧
    ((after_ruc_activation opts0 stC1).1 = Except.ok () ∧
     alGet (after_ruc_activation opts0 stC1).2.extensions "current_bids" = some (ExtVal.bids []) ∧
     alGet (after_ruc_activation opts0 stC1).2.extensions "next_bids" = some ExtVal.pyNone) :=
  ⟨rfl, after_ruc_activation_moves_bids opts0 stC1 (ExtVal.bids []) rfl⟩

/-- Claim C5: constructing a `DoubleLoopCoordinator` registers exactly
three initialization callbacks, one before-RUC-solve callback, one
before-operations-solve callback, one after-operations callback, one
update-operations-stats callback, one after-RUC-activation callback and
one after-simulation callback, and registers no hook more than once. -/
theorem construct_registers_exact_hooks (b : Bidder) (t : Tracker) :
    (DoubleLoopCoordinator.construct b t).2 = register_callbacks_events ∧
    register_callbacks_events =
      [(HookPoint.initialization, CallbackId.initializeCustomizedResults),
       (HookPoint.initialization, CallbackId.initializeBiddingObject),
       (HookPoint.initialization, CallbackId.initializeTrackingObject),
       (HookPoint.beforeRucSolve, CallbackId.bidIntoDAM),
       (HookPoint.beforeOperationsSolve, CallbackId.bidIntoRTM),
       (HookPoint.afterOperations, CallbackId.trackScedSignal),
       (HookPoint.updateOperationsStats, CallbackId.updateObservedThermalDispatch),
       (HookPoint.afterRucActivation, CallbackId.afterRucActivationCb),
       (HookPoint.afterSimulation, CallbackId.writePluginResults)] ∧
    register_callbacks_events.Nodup ∧
    hookCount HookPoint.initialization = 3 ∧
    hookCount HookPoint.beforeRucSolve = 1 ∧
    hookCount HookPoint.beforeOperationsSolve = 1 ∧
    hookCount HookPoint.afterOperations = 1 ∧
    hookCount HookPoint.updateOperationsStats = 1 ∧
    hookCount HookPoint.afterRucActivation = 1 ∧
    hookCount HookPoint.afterSimulation = 1 := by
  refine ⟨rfl, ?_⟩
  decide

/-- Claim C6: on a simulator state whose extensions dictionary lacks the
`'current_bids'` key, `bid_into_RTM` raises the missing-key error, which
propagates to the caller, and both the simulator state (hence its
extensions dictionary) and the SCED instance are unchanged. -/
theorem bid_into_RTM_missing_key_propagates (options : Options) (st : SimState)
    (sced : ScedInstance) (tm : TimeStep)
    (h1 : st.current_time = some tm)
    (h2 : alGet st.extensions "current_bids" = none) :
    bid_into_RTM options st sced =
      (Except.error (PyErr.keyError "current_bids"), st, sced) := by
  unfold bid_into_RTM
  rw [h1, h2]

theorem bid_into_RTM_missing_key_propagates_witness :
    stC6.current_time = some ⟨"2020-07-10", 5⟩ ∧
    alGet stC6.extensions "current_bids" = none ∧
    bid_into_RTM opts0 stC6 sced0 =
      (Except.error (PyErr.keyError "current_bids"), stC6, sced0) :=
  ⟨rfl, rfl,
   bid_into_RTM_missing_key_propagates opts0 stC6 sced0 ⟨"2020-07-10", 5⟩ rfl rfl⟩

/-- Claim C8: when the extensions entry `'plugin_objects'` holds a
dictionary of plugin objects, `write_plugin_results` issues a
`write_results` call with path `options.output_directory` for every
stored object (in particular for the bidder and the tracker), and
changes nothing else. -/
theorem write_plugin_results_calls_all (options : Options) (st : SimState)
    (pd : List (String × PluginObj))
    (h : alGet st.extensions "plugin_objects" = some (ExtVal.pluginDict pd)) :
    (write_plugin_results options st).1 =
      Except.ok (pd.map (fun kv => (PluginObj.objName kv.2, options.output_directory))) ∧
    (write_plugin_results options st).2 = st ∧
    ∀ kv ∈ pd, (PluginObj.objName kv.2, options.output_directory) ∈
      pd.map (fun kv => (PluginObj.objName kv.2, options.output_directory)) := by
  unfold write_plugin_results
  rw [h]
  refine ⟨rfl, rfl, ?_⟩
  intro kv hkv
  exact List.mem_map_of_mem _ hkv

theorem write_plugin_results_calls_all_witness :
    alGet stC8.extensions "plugin_objects" = some (ExtVal.pluginDict pd0) ∧
    ((write_plugin_results opts0 stC8).1 =
       Except.ok (pd0.map (fun kv => (PluginObj.objName kv.2, opts0.output_directory))) ∧
     (write_plugin_results opts0 stC8).2 = stC8 ∧
     ∀ kv ∈ pd0, (PluginObj.objName kv.2, opts0.output_directory) ∈
       pd0.map (fun kv => (PluginObj.objName kv.2, opts0.output_directory))) :=
  ⟨rfl, write_plugin_results_calls_all opts0 stC8 pd0 rfl⟩

/-- Claim C2 (code bug): on any day after the first, `bid_into_DAM`
raises `NameError` at the bare `project_tracking_trajectory(...)` call
of source line 337, before the bidder is asked for bids and before
anything is written: the simulator state and the RUC instance come back
unchanged, so the generator's `'p_cost'` time series is never written. -/
theorem bid_into_DAM_day2_raises :
    bid_into_DAM opts0 stDay2 ruc0 "2020-07-11" 16 =
      (Except.error (PyErr.nameError "project_tracking_trajectory"), stDay2, ruc0) ∧
    (alGet ruc0.generators opts0.bidding_generator).map GenData.p_cost = some none :=
  ⟨rfl, rfl⟩

/-- Claim C3 (code bug): on a state whose extensions hold
`'current_bids'` and whose current hour is 5, `bid_into_RTM` raises
`NameError` at the bare `pass_RT_bid_to_prescient(...)` call of source
line 405; the SCED instance comes back unchanged and the generator's
`'p_cost'` entry is never written. -/
theorem bid_into_RTM_raises_not_writes :
    bid_into_RTM opts0 stRTM sced0 =
      (Except.error (PyErr.nameError "pass_RT_bid_to_prescient"), stRTM, sced0) ∧
    (alGet sced0.generators opts0.bidding_generator).map GenData.p_cost = some none :=
  ⟨rfl, rfl⟩

/-- Claim C9 (code bug): on the first day `bid_into_DAM` does store the
newly generated bid set under both `'current_bids'` and `'next_bids'`
(the stores persist although the call then raises `NameError` at source
line 354), but on a later day the bare `project_tracking_trajectory`
call of source line 337 raises `NameError` before the bidder is invoked,
so `'next_bids'` is left unchanged instead of receiving new bids. -/
theorem bid_into_DAM_bid_storage :
    (alGet (bid_into_DAM opts0 stDay1 ruc0 "2020-07-10" 16).2.1.extensions "current_bids" =
       some (ExtVal.bids bids1) ∧
     alGet (bid_into_DAM opts0 stDay1 ruc0 "2020-07-10" 16).2.1.extensions "next_bids" =
       some (ExtVal.bids bids1)) ∧
    ((bid_into_DAM opts0 stDay2 ruc0 "2020-07-11" 16).2.1 = stDay2 ∧
     alGet (bid_into_DAM opts0 stDay2 ruc0 "2020-07-11" 16).2.1.extensions "next_bids" =
       some ExtVal.pyNone) :=
  ⟨⟨rfl, rfl⟩, ⟨rfl, rfl⟩⟩

theorem projectSignalLoop_spec (g : String) (d : String → Nat → Int) :
    ∀ n t, (projectSignalLoop g d t n).length = n ∧
      ∀ j, j < n → (projectSignalLoop g d t n).getD j 0 =
        (if t + j ≥ 23 then d g 23 else d g (t + j)) := by
  intro n
  induction n with
  | zero =>
    intro t
    exact ⟨rfl, fun j hj => absurd hj (by omega)⟩
  | succ n ih =>
    intro t
    constructor
    · simp [projectSignalLoop, (ih (t + 1)).1]
    · intro j hj
      cases j with
      | zero =>
        simp [projectSignalLoop]
      | succ j' =>
        have hrec := (ih (t + 1)).2 j' (by omega)
        have harith : t + (j' + 1) = t + 1 + j' := by omega
        rw [projectSignalLoop, List.getD_cons_succ, hrec, harith]

/-- Claim C10: for `sced_horizon = H >= 1` and an active RUC market,
`assemble_project_tracking_signal` maps the bidding generator to a list
of exactly `H` values whose entry for each `t` in `[hour, hour+H)` is
the active RUC dispatch at `(generator, t)` for `t < 23` and the active
RUC dispatch at `(generator, 23)` for every `t >= 23`. -/
theorem assemble_project_tracking_signal_spec (options : Options) (st : SimState)
    (hour : Nat) (mkt : RucMarket)
    (_hH : 1 ≤ options.sced_horizon)
    (hA : st.ruc_market_active = some mkt) :
    ∃ l, assemble_project_tracking_signal options st hour =
        Except.ok [(options.bidding_generator, l)] ∧
      l.length = options.sced_horizon ∧
      ∀ t, hour ≤ t → t < hour + options.sced_horizon →
        l.getD (t - hour) 0 =
          (if t < 23 then mkt.thermal_gen_cleared_DA options.bidding_generator t
           else mkt.thermal_gen_cleared_DA options.bidding_generator 23) := by
  refine ⟨projectSignalLoop options.bidding_generator mkt.thermal_gen_cleared_DA
      hour options.sced_horizon, ?_, ?_, ?_⟩
  · unfold assemble_project_tracking_signal
    rw [hA]
  · exact (projectSignalLoop_spec _ _ options.sced_horizon hour).1
  · intro t h1 h2
    have hs := (projectSignalLoop_spec options.bidding_generator
        mkt.thermal_gen_cleared_DA options.sced_horizon hour).2 (t - hour) (by omega)
    rw [show hour + (t - hour) = t from by omega] at hs
    rw [hs]
    by_cases hc : t < 23
    · rw [if_neg (by omega), if_pos hc]
    · rw [if_pos (by omega), if_neg hc]

theorem assemble_project_tracking_signal_spec_witness :
    (1 ≤ opts0.sced_horizon ∧ stC4.ruc_market_active = some mkt0) ∧
    (∃ l, assemble_project_tracking_signal opts0 stC4 21 =
        Except.ok [(opts0.bidding_generator, l)] ∧
      l.length = opts0.sced_horizon ∧
      ∀ t, 21 ≤ t → t < 21 + opts0.sced_horizon →
        l.getD (t - 21) 0 =
          (if t < 23 then mkt0.thermal_gen_cleared_DA opts0.bidding_generator t
           else mkt0.thermal_gen_cleared_DA opts0.bidding_generator 23)) :=
  ⟨⟨by decide, rfl⟩,
   assemble_project_tracking_signal_spec opts0 stC4 21 mkt0 (by decide) rfl⟩

theorem get_opt_eq_getD {α : Type} (l : List α) (i : Nat) (d : α) (h : i < l.length) :
    l.get? i = some (l.getD i d) := by
  induction l generalizing i with
  | nil => simp at h
  | cons a tl ih =>
    cases i with
    | zero => rfl
    | succ i' =>
      show tl.get? i' = some (tl.getD i' d)
      exact ih i' (by simpa using h)

theorem listIdx_ok {α : Type} (l : List α) (i : Nat) (d : α) (h : i < l.length) :
    listIdx l i = Except.ok (l.getD i d) := by
  unfold listIdx
  rw [get_opt_eq_getD l i d h]

theorem scedSignalLoop_spec (g : String) (sd : List Int) (cur : String → Nat → Int)
    (pend : Option (String → Nat → Int)) (hour : Nat) :
    ∀ n t, (∀ j, j < n → t + j > 23 → pend = none → t + j - hour < sd.length) →
    ∃ l, scedSignalLoop g sd cur pend hour t n = Except.ok l ∧ l.length = n ∧
      ∀ j, j < n → l.getD j 0 = scedSignalAt g sd cur pend hour (t + j) := by
  intro n
  induction n with
  | zero =>
    intro t _
    exact ⟨[], rfl, rfl, fun j hj => absurd hj (by omega)⟩
  | succ n ih =>
    intro t hsafe
    obtain ⟨l', hl', hlen', helem'⟩ := ih (t + 1) (fun j hj h23 hp => by
      have hx := hsafe (j + 1) (by omega) (by omega) hp
      omega)
    refine ⟨scedSignalAt g sd cur pend hour t :: l', ?_, by simp [hlen'], ?_⟩
    · simp only [scedSignalLoop]
      by_cases hc : t > 23
      · cases hpend : pend with
        | some nx =>
          rw [hpend] at hl'
          simp only [scedSignalAt, if_pos hc, hl']
        | none =>
          rw [hpend] at hl'
          have hx := hsafe 0 (by omega) (by omega) hpend
          simp only [scedSignalAt, if_pos hc,
            listIdx_ok sd (t - hour) 0 (by omega), hl']
      · simp only [scedSignalAt, if_neg hc, hl']
    · intro j hj
      cases j with
      | zero => simp only [List.getD_cons_zero, Nat.add_zero]
      | succ j' =>
        rw [List.getD_cons_succ, helem' j' (by omega),
            show t + (j' + 1) = t + 1 + j' from by omega]

/-- Claim C4: for `sced_horizon = H >= 1`, a generator entry in the SCED
instance with at least `H` dispatch values and an active RUC market,
`assemble_sced_tracking_market_signals` maps the bidding generator to a
list of exactly `H` values whose first element is the SCED dispatch at
index 0 and whose entry for each `t` in `(hour, hour+H)` is the active
RUC dispatch at `(generator, t)` for `t <= 23`, the pending RUC dispatch
at `(generator, t mod 24)` for `t > 23` with a pending RUC present, and
the SCED dispatch at index `t - hour` for `t > 23` with no pending
RUC. -/
theorem assemble_sced_tracking_market_signals_spec (options : Options) (st : SimState)
    (sced : ScedInstance) (hour : Nat) (gd : GenData) (mkt : RucMarket)
    (hH : 1 ≤ options.sced_horizon)
    (hg : alGet sced.generators options.bidding_generator = some gd)
    (hA : st.ruc_market_active = some mkt)
    (hlen : options.sced_horizon ≤ gd.pg_values.length) :
    ∃ l, assemble_sced_tracking_market_signals options st sced hour =
        Except.ok [(options.bidding_generator, l)] ∧
      l.length = options.sced_horizon ∧
      l.getD 0 0 = gd.pg_values.getD 0 0 ∧
      ∀ t, hour < t → t < hour + options.sced_horizon →
        ((t ≤ 23 →
            l.getD (t - hour) 0 = mkt.thermal_gen_cleared_DA options.bidding_generator t) ∧
         (t > 23 → ∀ pm, st.ruc_market_pending = some pm →
            l.getD (t - hour) 0 = pm.thermal_gen_cleared_DA options.bidding_generator (t % 24)) ∧
         (t > 23 → st.ruc_market_pending = none →
            l.getD (t - hour) 0 = gd.pg_values.getD (t - hour) 0)) := by
  obtain ⟨l', hl', hlen', helem'⟩ := scedSignalLoop_spec options.bidding_generator
      gd.pg_values mkt.thermal_gen_cleared_DA
      (Option.map (fun m => m.thermal_gen_cleared_DA) st.ruc_market_pending) hour
      (options.sced_horizon - 1) (hour + 1) (fun j hj _h23 _hp => by omega)
  refine ⟨gd.pg_values.getD 0 0 :: l', ?_, by simp [hlen']; omega, rfl, ?_⟩
  · simp only [assemble_sced_tracking_market_signals, hg, hA]
    rw [listIdx_ok gd.pg_values 0 0 (by omega), hl']
  · intro t h1 h2
    obtain ⟨j, rfl⟩ : ∃ j, t = hour + 1 + j := ⟨t - hour - 1, by omega⟩
    have hrec := helem' j (by omega)
    have hidx : hour + 1 + j - hour = j + 1 := by omega
    rw [hidx, List.getD_cons_succ, hrec]
    refine ⟨?_, ?_, ?_⟩
    · intro ht
      simp only [scedSignalAt]
      rw [if_neg (by omega)]
    · intro ht pm hpm
      simp only [scedSignalAt, hpm]
      rw [if_pos ht]
      rfl
    · intro ht hnone
      simp only [scedSignalAt, hnone]
      rw [if_pos ht, hidx]
      rfl

theorem assemble_sced_tracking_market_signals_spec_witness :
    (1 ≤ opts0.sced_horizon ∧
     alGet sced0.generators opts0.bidding_generator = some gd0 ∧
     stC4.ruc_market_active = some mkt0 ∧
     opts0.sced_horizon ≤ gd0.pg_values.length) ∧
    (∃ l, assemble_sced_tracking_market_signals opts0 stC4 sced0 21 =
        Except.ok [(opts0.bidding_generator, l)] ∧
      l.length = opts0.sced_horizon ∧
      l.getD 0 0 = gd0.pg_values.getD 0 0 ∧
      ∀ t, 21 < t → t < 21 + opts0.sced_horizon →
        ((t ≤ 23 →
            l.getD (t - 21) 0 = mkt0.thermal_gen_cleared_DA opts0.bidding_generator t) ∧
         (t > 23 → ∀ pm, stC4.ruc_market_pending = some pm →
            l.getD (t - 21) 0 = pm.thermal_gen_cleared_DA opts0.bidding_generator (t % 24)) ∧
         (t > 23 → stC4.ruc_market_pending = none →
            l.getD (t - 21) 0 = gd0.pg_values.getD (t - 21) 0))) :=
  ⟨⟨by decide, by decide, rfl, by decide⟩,
   assemble_sced_tracking_market_signals_spec opts0 stC4 sced0 21 gd0 mkt0
     (by decide) (by decide) rfl (by decide)⟩

/-- Claim C7: after the three initialization callbacks run (in
registration order) on a state with no `'plugin_objects'` entry, that
entry holds exactly the coordinator's bidder under `'bidder'` and its
tracker under `'tracker'`; and no other coordinator callback ever
changes the `'plugin_objects'` entry of the extensions dictionary (hence
never replaces either handle), even when the callback fails. -/
theorem plugin_objects_handles_invariant (co : DoubleLoopCoordinator) (options : Options)
    (st : SimState)
    (h : alGet st.extensions "plugin_objects" = none) :
    ((run_initialization_callbacks co options st).1 = Except.ok () ∧
     alGet (run_initialization_callbacks co options st).2.extensions "plugin_objects" =
       some (ExtVal.pluginDict
         [("bidder", PluginObj.bidderObj co.bidder),
          ("tracker", PluginObj.trackerObj co.tracker)])) ∧
    (∀ o s ruc d hr, alGet (bid_into_DAM o s ruc d hr).2.1.extensions "plugin_objects" =
        alGet s.extensions "plugin_objects") ∧
    (∀ o s sced, alGet (bid_into_RTM o s sced).2.1.extensions "plugin_objects" =
        alGet s.extensions "plugin_objects") ∧
    (∀ o s sced, alGet (track_sced_signal o s sced).2.1.extensions "plugin_objects" =
        alGet s.extensions "plugin_objects") ∧
    (∀ o s ops, alGet (update_observed_thermal_dispatch o s ops).2.1.extensions "plugin_objects" =
        alGet s.extensions "plugin_objects") ∧
    (∀ o s, alGet (after_ruc_activation o s).2.extensions "plugin_objects" =
        alGet s.extensions "plugin_objects") ∧
    (∀ o s, alGet (write_plugin_results o s).2.extensions "plugin_objects" =
        alGet s.extensions "plugin_objects") := by
  refine ⟨?_, ?_, ?_, ?_, ?_, ?_, ?_⟩
  · have hA : alGet (alSet st.extensions "customized_results" (ExtVal.custom
        [("Generator", []), ("Date", []), ("Hour", []), ("State", []),
         ("RUC Schedule", []), ("SCED Schedule", []), ("Power Output", [])]))
        "plugin_objects" = none := by
      rw [alGet_alSet_ne _ _ _ _ (by decide)]
      exact h
    simp only [run_initialization_callbacks, initialize_customized_results,
      initialize_bidding_object, initialize_tracking_object, hA, alGet_alSet_self]
    exact ⟨trivial, rfl⟩
  · intro o s ruc d hr
    unfold bid_into_DAM
    cases getPluginObj s.extensions "bidder" with
    | error e => rfl
    | ok bo =>
      dsimp only
      cases hf : s.current_time.isNone with
      | false => rfl
      | true =>
        rw [if_pos (Eq.refl true)]
        cases PluginObj.call_stochastic_bidding bo d with
        | error e => rfl
        | ok bids =>
          show alGet (alSet (alSet s.extensions "current_bids" (ExtVal.bids bids))
              "next_bids" (ExtVal.bids bids)) "plugin_objects" =
            alGet s.extensions "plugin_objects"
          rw [alGet_alSet_ne _ _ _ _ (by decide), alGet_alSet_ne _ _ _ _ (by decide)]
  · intro o s sced
    unfold bid_into_RTM
    cases s.current_time with
    | none => rfl
    | some tm =>
      cases alGet s.extensions "current_bids" with
      | none => rfl
      | some b => rfl
  · intro o s sced
    unfold track_sced_signal
    cases s.current_time with
    | none => rfl
    | some tm =>
      cases getPluginObj s.extensions "tracker" with
      | error e => rfl
      | ok tr => rfl
  · intro o s ops
    unfold update_observed_thermal_dispatch
    cases getPluginObj s.extensions "tracker" with
    | error e => rfl
    | ok tr =>
      dsimp only
      cases PluginObj.call_get_last_delivered_power tr o.bidding_generator with
      | error e => rfl
      | ok p => rfl
  · intro o s
    unfold after_ruc_activation
    cases alGet s.extensions "next_bids" with
    | none => rfl
    | some v =>
      show alGet (alSet (alSet s.extensions "current_bids" v) "next_bids" ExtVal.pyNone)
          "plugin_objects" = alGet s.extensions "plugin_objects"
      rw [alGet_alSet_ne _ _ _ _ (by decide), alGet_alSet_ne _ _ _ _ (by decide)]
  · intro o s
    unfold write_plugin_results
    cases hv : alGet s.extensions "plugin_objects" with
    | none => exact hv
    | some v => cases v <;> exact hv

theorem plugin_objects_handles_invariant_witness :
    alGet stEmpty.extensions "plugin_objects" = none ∧
    (((run_initialization_callbacks co0 opts0 stEmpty).1 = Except.ok () ∧
      alGet (run_initialization_callbacks co0 opts0 stEmpty).2.extensions "plugin_objects" =
        some (ExtVal.pluginDict
          [("bidder", PluginObj.bidderObj co0.bidder),
           ("tracker", PluginObj.trackerObj co0.tracker)])) ∧
     (∀ o s ruc d hr, alGet (bid_into_DAM o s ruc d hr).2.1.extensions "plugin_objects" =
         alGet s.extensions "plugin_objects") ∧
     (∀ o s sced, alGet (bid_into_RTM o s sced).2.1.extensions "plugin_objects" =
         alGet s.extensions "plugin_objects") ∧
     (∀ o s sced, alGet (track_sced_signal o s sced).2.1.extensions "plugin_objects" =
         alGet s.extensions "plugin_objects") ∧
     (∀ o s ops, alGet (update_observed_thermal_dispatch o s ops).2.1.extensions "plugin_objects" =
         alGet s.extensions "plugin_objects") ∧
     (∀ o s, alGet (after_ruc_activation o s).2.extensions "plugin_objects" =
         alGet s.extensions "plugin_objects") ∧
     (∀ o s, alGet (write_plugin_results o s).2.extensions "plugin_objects" =
         alGet s.extensions "plugin_objects")) :=
  ⟨rfl, plugin_objects_handles_invariant co0 opts0 stEmpty rfl⟩
